import Mathlib

/-!
Verification of the MPRIS media-controls service
(`src/platform/mpris/dbus/controls.rs`) against its natural-language
specification.

The development is a shallow embedding of the Rust source: every definition
below is translated from the corresponding item in `controls.rs` (the file
and line are given in each doc comment).  `HashMap` values are modelled as
association lists with replace-on-insert semantics; `f64` values are carried
opaquely (the source never computes with them, it only stores and forwards
them); a Rust panic is modelled as `Option.none`.
-/

namespace SouvlakiMpris

/-- Opaque carrier for `f64` values.  The source performs no arithmetic on
volume values — they are stored and forwarded unchanged — so distinct bit
patterns are represented by distinct naturals. -/
abbrev F64 := Nat

/-- The crate-level `MediaPosition` (a `std::time::Duration`), represented by
its value in microseconds.  Its declaration lives outside this file's source;
only the fact that non-stopped playback variants carry one is used here. -/
structure MediaPosition where
  micros : Nat
  deriving DecidableEq, Repr

/-- The crate-level `MediaPlayback` enum: `Playing { progress }`,
`Paused { progress }`, `Stopped`, as matched in
`ServiceState::get_playback_status` (controls.rs lines 57-63). -/
inductive MediaPlayback where
  | Playing (progress : Option MediaPosition)
  | Paused (progress : Option MediaPosition)
  | Stopped
  deriving DecidableEq, Repr

/-- The crate-level `MediaButton` enum, with exactly the variants matched in
`run_service` (controls.rs lines 279-308). -/
inductive MediaButton where
  | Play
  | Pause
  | Next
  | Previous
  | Seek
  | Stop
  deriving DecidableEq, Repr

/-- `OwnedMetadata` (controls.rs lines 106-113).  `duration` is the `i64`
microsecond count, modelled as `Int`. -/
structure OwnedMetadata where
  title : Option String
  album : Option String
  artist : Option String
  cover_url : Option String
  duration : Option Int
  deriving DecidableEq, Repr

/-- The `Default` instance derived for `OwnedMetadata`: every field `None`. -/
def OwnedMetadata.defaultValue : OwnedMetadata :=
  { title := none, album := none, artist := none, cover_url := none, duration := none }

/-- The crate-level borrowed `MediaMetadata` passed to `set_metadata`.  Its
declaration lives outside this file's source; the fields are those read by the
`From` impl (controls.rs lines 115-126).  `duration` is a `std::time::Duration`,
represented by its `as_micros()` value (a nonnegative integer). -/
structure MediaMetadata where
  title : Option String
  artist : Option String
  album : Option String
  cover_url : Option String
  duration : Option Nat
  deriving DecidableEq, Repr

/-- A D-Bus variant value, covering the argument shapes that appear in this
source file: strings, string lists, 64-bit integers, object paths, booleans,
`f64` values and string-keyed dictionaries. -/
inductive DbusValue where
  | vString (s : String)
  | vStringList (l : List String)
  | vInt64 (n : Int)
  | vPath (p : String)
  | vBool (b : Bool)
  | vF64 (x : F64)
  | vDict (d : List (String × DbusValue))

/-- A string-keyed dictionary of variant values, the model of
`HashMap<String, Variant<Box<dyn RefArg>>>`. -/
abbrev DbusDict := List (String × DbusValue)

/-- Whether the dictionary already holds an entry for key `k`. -/
def containsKey (k : String) : DbusDict → Bool
  | [] => false
  | (k2, _) :: rest => if k2 = k then true else containsKey k rest

/-- `HashMap::insert`: replace the binding of `k` if present, otherwise append
a new binding.  (In this source every key is inserted at most once, so the
replace branch is never taken, but the model keeps `HashMap`'s semantics.) -/
def hmInsert (d : DbusDict) (k : String) (v : DbusValue) : DbusDict :=
  if containsKey k d then
    d.map (fun p => if p.1 = k then (k, v) else p)
  else
    d ++ [(k, v)]

/-- `HashMap::get`: the value bound to `k`, if any. -/
def dictLookup (k : String) : DbusDict → Option DbusValue
  | [] => none
  | (k2, v) :: rest => if k2 = k then some v else dictLookup k rest

/-- `create_metadata_dict` (controls.rs lines 66-104): always insert the fixed
placeholder track id (the path `/`); insert `mpris:length`, `mpris:artUrl`,
`xesam:title`, `xesam:artist` (as a one-element string list) and `xesam:album`
only when the corresponding optional field is present. -/
def create_metadata_dict (metadata : OwnedMetadata) : DbusDict :=
  let dict : DbusDict := []
  let dict := hmInsert dict "mpris:trackid" (DbusValue.vPath "/")
  let dict :=
    match metadata.duration with
    | some length => hmInsert dict "mpris:length" (DbusValue.vInt64 length)
    | none => dict
  let dict :=
    match metadata.cover_url with
    | some cover_url => hmInsert dict "mpris:artUrl" (DbusValue.vString cover_url)
    | none => dict
  let dict :=
    match metadata.title with
    | some title => hmInsert dict "xesam:title" (DbusValue.vString title)
    | none => dict
  let dict :=
    match metadata.artist with
    | some artist => hmInsert dict "xesam:artist" (DbusValue.vStringList [artist])
    | none => dict
  let dict :=
    match metadata.album with
    | some album => hmInsert dict "xesam:album" (DbusValue.vString album)
    | none => dict
  dict

/-- `ServiceState` (controls.rs lines 38-49). -/
structure ServiceState where
  metadata : OwnedMetadata
  metadata_dict : DbusDict
  playback_status : MediaPlayback
  volume : F64
  can_play : Bool
  can_pause : Bool
  can_go_next : Bool
  can_go_previous : Bool
  can_seek : Bool

/-- `ServiceState::set_metadata` (controls.rs lines 52-55): recompute the wire
dictionary, then store the new metadata. -/
def ServiceState.set_metadata (st : ServiceState) (metadata : OwnedMetadata) : ServiceState :=
  { st with metadata_dict := create_metadata_dict metadata, metadata := metadata }

/-- `ServiceState::get_playback_status` (controls.rs lines 57-63): the exported
token depends only on the variant of `playback_status`. -/
def ServiceState.get_playback_status (st : ServiceState) : String :=
  match st.playback_status with
  | MediaPlayback.Playing _ => "Playing"
  | MediaPlayback.Paused _ => "Paused"
  | MediaPlayback.Stopped => "Stopped"

/-- The token `get_playback_status` yields for a given playback value. -/
def playbackToken (p : MediaPlayback) : String :=
  match p with
  | MediaPlayback.Playing _ => "Playing"
  | MediaPlayback.Paused _ => "Paused"
  | MediaPlayback.Stopped => "Stopped"

/-- `InternalEvent` (controls.rs lines 29-36). -/
inductive InternalEvent where
  | ChangeMetadata (m : OwnedMetadata)
  | ChangePlayback (p : MediaPlayback)
  | ChangeVolume (v : F64)
  | ChangeButtonEnabled (b : MediaButton) (enabled : Bool)
  | Kill
  deriving DecidableEq, Repr

/-- The `PropertiesPropertiesChanged` signal body built in `run_service`
(controls.rs lines 313-317). -/
structure PropertiesChangedMsg where
  interface_name : String
  changed_properties : DbusDict
  invalidated_properties : List String

/-- One iteration of the `run_service` command-processing body for a dequeued
non-`Kill` event (controls.rs lines 253-322): apply the event to the state,
collect the changed properties, and build the signal that is then sent
unconditionally.  (`Kill` never reaches this code — the loop breaks first —
and is mapped to the wildcard arm, which changes nothing.) -/
def processEvent (st : ServiceState) (event : InternalEvent) : ServiceState × PropertiesChangedMsg :=
  let step : ServiceState × DbusDict :=
    match event with
    | InternalEvent.ChangeMetadata metadata =>
      let st2 := ServiceState.set_metadata st metadata
      (st2, hmInsert [] "Metadata" (DbusValue.vDict st2.metadata_dict))
    | InternalEvent.ChangePlayback playback =>
      let st2 := { st with playback_status := playback }
      (st2, hmInsert [] "PlaybackStatus" (DbusValue.vString (ServiceState.get_playback_status st2)))
    | InternalEvent.ChangeVolume volume =>
      ({ st with volume := volume }, hmInsert [] "Volume" (DbusValue.vF64 volume))
    | InternalEvent.ChangeButtonEnabled button enabled =>
      match button with
      | MediaButton.Play =>
        ({ st with can_play := enabled }, hmInsert [] "CanPlay" (DbusValue.vBool enabled))
      | MediaButton.Pause =>
        ({ st with can_pause := enabled }, hmInsert [] "CanPause" (DbusValue.vBool enabled))
      | MediaButton.Next =>
        ({ st with can_go_next := enabled }, hmInsert [] "CanGoNext" (DbusValue.vBool enabled))
      | MediaButton.Previous =>
        ({ st with can_go_previous := enabled }, hmInsert [] "CanGoPrevious" (DbusValue.vBool enabled))
      | MediaButton.Seek =>
        ({ st with can_seek := enabled }, hmInsert [] "CanSeek" (DbusValue.vBool enabled))
      | MediaButton.Stop => (st, [])
    | InternalEvent.Kill => (st, [])
  (step.1,
    { interface_name := "org.mpris.MediaPlayer2.Player"
      changed_properties := step.2
      invalidated_properties := [] })

/-- The initial `ServiceState` built at the top of `run_service`
(controls.rs lines 222-232). -/
def initialServiceState : ServiceState :=
  { metadata := OwnedMetadata.defaultValue
    metadata_dict := create_metadata_dict OwnedMetadata.defaultValue
    playback_status := MediaPlayback.Stopped
    volume := 1
    can_play := true
    can_pause := true
    can_go_next := true
    can_go_previous := true
    can_seek := true }

/-- The `run_service` loop (controls.rs lines 247-325), restricted to the
command-processing path: the worker dequeues events in order, breaks as soon
as it sees `Kill`, and otherwise applies the event and sends one
`PropertiesChanged` signal.  The result is the final state together with the
list of signals sent, in order.  (Timeouts and the bounded `conn.process`
servicing of inbound calls carry no state change and are not modelled.) -/
def runWorker : ServiceState → List InternalEvent → ServiceState × List PropertiesChangedMsg
  | st, [] => (st, [])
  | st, e :: rest =>
    if e = InternalEvent.Kill then (st, [])
    else
      let step := processEvent st e
      let next := runWorker step.1 rest
      (next.1, step.2 :: next.2)

/-- The consistency invariant of `ServiceState`: the cached wire dictionary is
exactly the codec applied to the current metadata. -/
def metadataDictConsistent (st : ServiceState) : Prop :=
  st.metadata_dict = create_metadata_dict st.metadata

/-- The crate's `Error` enum (declared in the enclosing mpris module, outside
this file's source), with the constructors that appear in `controls.rs`:
`ThreadNotRunning` (controls.rs line 205), `ThreadPanicked` (lines 179 and
209) and the variant produced by the `From<dbus::Error>` conversions behind
the `?` operators. -/
inductive Error where
  | ThreadNotRunning
  | ThreadPanicked
  | DbusError (message : String)
  deriving DecidableEq, Repr

/-- The observable state of a `MediaControls` handle for the facade
operations: `attached` is `self.thread.is_some()`, and `channelOpen` records
whether the worker still holds the receiving end of the command channel
(an `mpsc` send succeeds exactly when the receiver is alive). -/
structure FacadeState where
  attached : Bool
  channelOpen : Bool
  deriving DecidableEq, Repr

/-- `MediaControls::send_internal_event` (controls.rs lines 204-210): error
`ThreadNotRunning` when no worker handle is stored; otherwise the enqueue
fails with `ThreadPanicked` exactly when the worker has dropped the receiver. -/
def send_internal_event (c : FacadeState) (_event : InternalEvent) : Except Error Unit :=
  if c.attached then
    if c.channelOpen then Except.ok () else Except.error Error.ThreadPanicked
  else
    Except.error Error.ThreadNotRunning

/-- `MediaControls::set_playback` (controls.rs lines 185-187). -/
def set_playback (c : FacadeState) (playback : MediaPlayback) : Except Error Unit :=
  send_internal_event c (InternalEvent.ChangePlayback playback)

/-- `MediaControls::set_volume` (controls.rs lines 195-197). -/
def set_volume (c : FacadeState) (volume : F64) : Except Error Unit :=
  send_internal_event c (InternalEvent.ChangeVolume volume)

/-- `MediaControls::set_button_enabled` (controls.rs lines 200-202). -/
def set_button_enabled (c : FacadeState) (button : MediaButton) (enabled : Bool) :
    Except Error Unit :=
  send_internal_event c (InternalEvent.ChangeButtonEnabled button enabled)

/-- The `i64::MAX` bound used by `TryInto<i64>`. -/
def i64Max : Nat := 2 ^ 63 - 1

/-- `u128 -> i64` conversion via `TryInto`: succeeds exactly when the value
fits in the signed 64-bit range (the source value is nonnegative). -/
def tryIntoI64 (n : Nat) : Option Int :=
  if n ≤ i64Max then some (Int.ofNat n) else none

/-- `From<MediaMetadata> for OwnedMetadata` (controls.rs lines 115-126).  The
source unwraps the duration conversion, so a duration outside the `i64` range
panics: the panic is modelled as `none`. -/
def ownedMetadataFromMedia (other : MediaMetadata) : Option OwnedMetadata :=
  match other.duration with
  | none =>
    some { title := other.title, artist := other.artist, album := other.album,
           cover_url := other.cover_url, duration := none }
  | some d =>
    match tryIntoI64 d with
    | none => none
    | some i =>
      some { title := other.title, artist := other.artist, album := other.album,
             cover_url := other.cover_url, duration := some i }

/-- `MediaControls::set_metadata` (controls.rs lines 190-192): converts the
borrowed metadata (which can panic, hence the outer `Option`) and enqueues it. -/
def set_metadata (c : FacadeState) (metadata : MediaMetadata) : Option (Except Error Unit) :=
  (ownedMetadataFromMedia metadata).map
    (fun om => send_internal_event c (InternalEvent.ChangeMetadata om))

/-- Outcome of `thread.join()` on the worker: the thread panicked, or it
completed and returned its own `Result`. -/
inductive JoinOutcome where
  | panicked
  | completed (r : Except Error Unit)
  deriving Repr

/-- What a call to `detach` does and returns. -/
structure DetachResult where
  newAttached : Bool
  joined : Bool
  result : Except Error Unit
  deriving Repr

/-- `MediaControls::detach` (controls.rs lines 168-182): `self.thread.take()`
clears the stored handle before anything can fail; when a handle was stored,
`Kill` is sent (result ignored) and the join outcome is mapped to
`ThreadPanicked` on panic, to the worker's own error when it returned one,
and to success otherwise.  When no handle is stored nothing happens and the
call returns `Ok`. -/
def detach (c : FacadeState) (join : JoinOutcome) : DetachResult :=
  if c.attached then
    { newAttached := false
      joined := true
      result :=
        match join with
        | JoinOutcome.panicked => Except.error Error.ThreadPanicked
        | JoinOutcome.completed (Except.error e) => Except.error e
        | JoinOutcome.completed (Except.ok _) => Except.ok () }
  else
    { newAttached := c.attached, joined := false, result := Except.ok () }

/-- The arguments of a `RequestName` call on the bus. -/
structure RequestNameCall where
  name : String
  allow_replacement : Bool
  replace_existing : Bool
  do_not_queue : Bool
  deriving DecidableEq, Repr

/-- The bus-name registration performed by `MediaControls::attach`
(controls.rs lines 157-158): `conn.request_name(name, false, true, false)`,
where the dbus crate's parameter order is
`(name, allow_replacement, replace_existing, do_not_queue)`. -/
def attachRequestName (dbus_name : String) : RequestNameCall :=
  { name := "org.mpris.MediaPlayer2." ++ dbus_name
    allow_replacement := false
    replace_existing := true
    do_not_queue := false }

/-- Reply codes of the bus's `RequestName` method. -/
inductive RequestNameReply where
  | PrimaryOwner
  | InQueue
  | Exists
  deriving DecidableEq, Repr

/-- Modelled from the spec: the message bus's `RequestName` arbitration,
which is outside this repository (the bus transport is an external
collaborator).  A free name is granted; an owned name is taken over only when
the owner allowed replacement and the requester asked for it; otherwise the
requester is queued, unless it asked not to queue, in which case the reply is
`Exists`.  None of these replies is a transport error. -/
def busRequestName (owner : Option RequestNameCall) (req : RequestNameCall) :
    RequestNameReply :=
  match owner with
  | none => RequestNameReply.PrimaryOwner
  | some own =>
    if own.allow_replacement && req.replace_existing then RequestNameReply.PrimaryOwner
    else if req.do_not_queue then RequestNameReply.Exists
    else RequestNameReply.InQueue

/-! Helper lemmas about the worker loop. -/

lemma runWorker_cons_kill (st : ServiceState) (rest : List InternalEvent) :
    runWorker st (InternalEvent.Kill :: rest) = (st, []) := rfl

lemma runWorker_cons (st : ServiceState) (e : InternalEvent) (rest : List InternalEvent)
    (he : e ≠ InternalEvent.Kill) :
    runWorker st (e :: rest)
      = ((runWorker (processEvent st e).1 rest).1,
         (processEvent st e).2 :: (runWorker (processEvent st e).1 rest).2) := by
  simp [runWorker, he]

lemma processEvent_consistent (st : ServiceState) (e : InternalEvent)
    (h : metadataDictConsistent st) : metadataDictConsistent (processEvent st e).1 := by
  cases e with
  | ChangeMetadata m => rfl
  | ChangePlayback p => exact h
  | ChangeVolume v => exact h
  | ChangeButtonEnabled b en => cases b <;> exact h
  | Kill => exact h

lemma runWorker_consistent (st : ServiceState) (evts : List InternalEvent)
    (h : metadataDictConsistent st) : metadataDictConsistent (runWorker st evts).1 := by
  induction evts generalizing st with
  | nil => exact h
  | cons e rest ih =>
    by_cases he : e = InternalEvent.Kill
    · subst he
      rw [runWorker_cons_kill]
      exact h
    · rw [runWorker_cons st e rest he]
      exact ih _ (processEvent_consistent st e h)

end SouvlakiMpris

namespace SouvlakiMpris

/-! Claim theorems. -/

/-- C5: `create_metadata_dict` always contains the fixed placeholder track id;
it contains a length, art-URL, title or album entry exactly when the
corresponding optional field is present (with its value); the artist entry is
present exactly when `artist` is, encoded as a single-element string list; an
absent field yields no entry at all.  Empty metadata maps to the dictionary
holding only the track id, and `{title := "A", duration := 1000}` maps to
exactly the track id, title and length entries. -/
theorem create_metadata_dict_entries :
    (∀ m : OwnedMetadata,
      dictLookup "mpris:trackid" (create_metadata_dict m) = some (DbusValue.vPath "/")
      ∧ dictLookup "mpris:length" (create_metadata_dict m) = m.duration.map DbusValue.vInt64
      ∧ dictLookup "mpris:artUrl" (create_metadata_dict m) = m.cover_url.map DbusValue.vString
      ∧ dictLookup "xesam:title" (create_metadata_dict m) = m.title.map DbusValue.vString
      ∧ dictLookup "xesam:artist" (create_metadata_dict m)
          = m.artist.map (fun artist => DbusValue.vStringList [artist])
      ∧ dictLookup "xesam:album" (create_metadata_dict m) = m.album.map DbusValue.vString)
    ∧ create_metadata_dict OwnedMetadata.defaultValue = [("mpris:trackid", DbusValue.vPath "/")]
    ∧ create_metadata_dict
        { title := some "A", album := none, artist := none, cover_url := none,
          duration := some 1000 }
      = [("mpris:trackid", DbusValue.vPath "/"), ("mpris:length", DbusValue.vInt64 1000),
         ("xesam:title", DbusValue.vString "A")] := by
  refine ⟨?_, rfl, rfl⟩
  intro m
  obtain ⟨t, al, ar, c, d⟩ := m
  cases t <;> cases al <;> cases ar <;> cases c <;> cases d <;>
    exact ⟨rfl, rfl, rfl, rfl, rfl, rfl⟩

/-- C4: for every substantive command the computed changed-property set is
exactly the one given by the mapping table — `ChangeMetadata` yields exactly
the recomputed dictionary under `Metadata`; `ChangePlayback` yields exactly
`PlaybackStatus` bound to the token determined solely by the variant (any
carried timing information is dropped); `ChangeVolume v` yields exactly
`Volume` bound to `v`; `ChangeButtonEnabled` yields exactly the single
corresponding capability entry, and the `Stop` button yields the empty set. -/
theorem changed_properties_mapping :
    ∀ st : ServiceState,
      (∀ m, (processEvent st (InternalEvent.ChangeMetadata m)).2.changed_properties
          = [("Metadata", DbusValue.vDict (create_metadata_dict m))])
      ∧ (∀ p, (processEvent st (InternalEvent.ChangePlayback p)).2.changed_properties
          = [("PlaybackStatus", DbusValue.vString (playbackToken p))])
      ∧ (∀ t, playbackToken (MediaPlayback.Playing t) = "Playing")
      ∧ (∀ t, playbackToken (MediaPlayback.Paused t) = "Paused")
      ∧ playbackToken MediaPlayback.Stopped = "Stopped"
      ∧ (∀ v, (processEvent st (InternalEvent.ChangeVolume v)).2.changed_properties
          = [("Volume", DbusValue.vF64 v)])
      ∧ (∀ en,
          (processEvent st (InternalEvent.ChangeButtonEnabled MediaButton.Play en)).2.changed_properties
            = [("CanPlay", DbusValue.vBool en)])
      ∧ (∀ en,
          (processEvent st (InternalEvent.ChangeButtonEnabled MediaButton.Pause en)).2.changed_properties
            = [("CanPause", DbusValue.vBool en)])
      ∧ (∀ en,
          (processEvent st (InternalEvent.ChangeButtonEnabled MediaButton.Next en)).2.changed_properties
            = [("CanGoNext", DbusValue.vBool en)])
      ∧ (∀ en,
          (processEvent st (InternalEvent.ChangeButtonEnabled MediaButton.Previous en)).2.changed_properties
            = [("CanGoPrevious", DbusValue.vBool en)])
      ∧ (∀ en,
          (processEvent st (InternalEvent.ChangeButtonEnabled MediaButton.Seek en)).2.changed_properties
            = [("CanSeek", DbusValue.vBool en)])
      ∧ (∀ en,
          (processEvent st (InternalEvent.ChangeButtonEnabled MediaButton.Stop en)).2.changed_properties
            = []) := by
  intro st
  refine ⟨fun m => rfl, fun p => ?_, fun t => rfl, fun t => rfl, rfl, fun v => rfl,
    fun en => rfl, fun en => rfl, fun en => rfl, fun en => rfl, fun en => rfl, fun en => rfl⟩
  cases p <;> rfl

/-- C6: the cached wire dictionary always equals `create_metadata_dict`
applied to the current metadata — it holds for the worker's initial state and
for the state after the worker has processed any sequence of commands. -/
theorem metadata_dict_invariant :
    metadataDictConsistent initialServiceState
    ∧ ∀ evts : List InternalEvent,
        metadataDictConsistent (runWorker initialServiceState evts).1 :=
  ⟨rfl, fun evts => runWorker_consistent initialServiceState evts rfl⟩

/-- C7: once the worker dequeues `Kill` (the shutdown command) it exits; the
final state and the emitted signals are unaffected by any command queued after
it — nothing after the shutdown is applied and nothing further is emitted. -/
theorem worker_halts_at_kill (st : ServiceState) (pre rest : List InternalEvent)
    (h : InternalEvent.Kill ∉ pre) :
    runWorker st (pre ++ InternalEvent.Kill :: rest)
      = runWorker st (pre ++ [InternalEvent.Kill]) := by
  induction pre generalizing st with
  | nil => rfl
  | cons e pre2 ih =>
    have he : e ≠ InternalEvent.Kill := fun h2 => h (by simp [h2])
    have hpre : InternalEvent.Kill ∉ pre2 := fun h2 => h (List.mem_cons_of_mem _ h2)
    rw [List.cons_append, List.cons_append, runWorker_cons _ e _ he, runWorker_cons _ e _ he,
      ih (processEvent st e).1 hpre]

/-- Closed instance of `worker_halts_at_kill`: commands after `Kill` change
neither the final state nor the emitted signals. -/
theorem worker_halts_at_kill_witness :
    runWorker initialServiceState
        ([InternalEvent.ChangeVolume 0] ++ InternalEvent.Kill :: [InternalEvent.ChangeVolume 1])
      = runWorker initialServiceState ([InternalEvent.ChangeVolume 0] ++ [InternalEvent.Kill]) :=
  worker_halts_at_kill initialServiceState [InternalEvent.ChangeVolume 0]
    [InternalEvent.ChangeVolume 1] (by decide)

/-- C1 counterexample: processing `ChangeButtonEnabled(Stop, true)` — whose
changed-property set is empty — still sends one `PropertiesChanged` message
(with an empty map): the loop builds and sends the signal unconditionally,
with no non-emptiness check. -/
theorem stop_button_still_emits :
    (runWorker initialServiceState
        [InternalEvent.ChangeButtonEnabled MediaButton.Stop true]).2
      = [{ interface_name := "org.mpris.MediaPlayer2.Player",
           changed_properties := [],
           invalidated_properties := [] }] := rfl

/-- C1 amended: the worker sends exactly one `PropertiesChanged` message per
processed substantive command, whether or not the computed changed-property
set is empty. -/
theorem one_emission_per_command (st : ServiceState) (evts : List InternalEvent)
    (h : InternalEvent.Kill ∉ evts) :
    (runWorker st evts).2.length = evts.length := by
  induction evts generalizing st with
  | nil => rfl
  | cons e rest ih =>
    have he : e ≠ InternalEvent.Kill := fun h2 => h (by simp [h2])
    have hrest : InternalEvent.Kill ∉ rest := fun h2 => h (List.mem_cons_of_mem _ h2)
    rw [runWorker_cons st e rest he]
    simp [ih (processEvent st e).1 hrest]

/-- Closed instance of `one_emission_per_command`: two substantive commands,
one of them `ChangeButtonEnabled(Stop, false)`, produce two messages. -/
theorem one_emission_per_command_witness :
    (runWorker initialServiceState
        [InternalEvent.ChangeButtonEnabled MediaButton.Stop false,
         InternalEvent.ChangeVolume 0]).2.length = 2 :=
  one_emission_per_command initialServiceState
    [InternalEvent.ChangeButtonEnabled MediaButton.Stop false, InternalEvent.ChangeVolume 0]
    (by decide)

/-- C2 counterexample: `attach` requests the bus name with the do-not-queue
flag cleared — the registration is queued, not non-queued — and consequently
a second registrant (itself refusing replacement) is placed in the queue
behind the current owner instead of failing. -/
theorem attach_request_name_queues :
    (attachRequestName "souvlaki").do_not_queue = false
    ∧ busRequestName (some (attachRequestName "a")) (attachRequestName "b")
        = RequestNameReply.InQueue := ⟨rfl, rfl⟩

/-- C2 amended: `attach` registers the fixed prefix plus the configured suffix
with allow-replacement off, replace-existing on and do-not-queue off, so the
service cannot be replaced while it owns the name, but a later registrant that
does not itself allow replacement queues behind the current owner rather than
receiving an error. -/
theorem attach_request_name_flags (dbus_name : String) :
    attachRequestName dbus_name
      = { name := "org.mpris.MediaPlayer2." ++ dbus_name
          allow_replacement := false
          replace_existing := true
          do_not_queue := false }
    ∧ ∀ own : RequestNameCall, own.allow_replacement = false →
        busRequestName (some own) (attachRequestName dbus_name)
          = RequestNameReply.InQueue := by
  refine ⟨rfl, fun own hown => ?_⟩
  simp [busRequestName, attachRequestName, hown]

/-- Closed instance of `attach_request_name_flags`: with the service itself as
current owner, a second `attach` registration is queued. -/
theorem attach_request_name_flags_witness :
    busRequestName (some (attachRequestName "a")) (attachRequestName "souvlaki")
      = RequestNameReply.InQueue :=
  (attach_request_name_flags "souvlaki").2 (attachRequestName "a") rfl

/-- C3 counterexample: when the worker is gone, a setter's failed enqueue and
`detach`'s reaction to an abnormally terminated (panicked) worker return the
very same error value, `ThreadPanicked` — the two conditions are not
observably distinct. -/
theorem enqueue_failure_equals_detach_failure :
    send_internal_event { attached := true, channelOpen := false }
        (InternalEvent.ChangeVolume 0)
      = Except.error Error.ThreadPanicked
    ∧ (detach { attached := true, channelOpen := false } JoinOutcome.panicked).result
      = Except.error Error.ThreadPanicked := ⟨rfl, rfl⟩

/-- C3 amended: a setter whose enqueue fails because the worker has terminated
returns `ThreadPanicked` — the same error kind `detach` returns for abnormal
worker termination; the kinds are distinct from `ThreadNotRunning` but not
from each other. -/
theorem setter_enqueue_failure_kind (c : FacadeState) (e : InternalEvent)
    (h1 : c.attached = true) (h2 : c.channelOpen = false) :
    send_internal_event c e = Except.error Error.ThreadPanicked
    ∧ (detach c JoinOutcome.panicked).result = Except.error Error.ThreadPanicked
    ∧ Error.ThreadPanicked ≠ Error.ThreadNotRunning := by
  refine ⟨?_, ?_, by decide⟩
  · simp [send_internal_event, h1, h2]
  · simp [detach, h1]

/-- Closed instance of `setter_enqueue_failure_kind` at an attached facade
whose worker has dropped the channel. -/
theorem setter_enqueue_failure_kind_witness :
    send_internal_event { attached := true, channelOpen := false }
        (InternalEvent.ChangeVolume 1)
      = Except.error Error.ThreadPanicked :=
  (setter_enqueue_failure_kind { attached := true, channelOpen := false }
    (InternalEvent.ChangeVolume 1) rfl rfl).1

/-- C8: `detach` always clears the stored worker handle (whatever the join
outcome, error included), and a second consecutive `detach` performs no join
and returns success, leaving the handle cleared. -/
theorem detach_clears_handle (c : FacadeState) (j j2 : JoinOutcome) (co : Bool) :
    (detach c j).newAttached = false
    ∧ (detach { attached := (detach c j).newAttached, channelOpen := co } j2).joined = false
    ∧ (detach { attached := (detach c j).newAttached, channelOpen := co } j2).result
        = Except.ok ()
    ∧ (detach { attached := (detach c j).newAttached, channelOpen := co } j2).newAttached
        = false := by
  have h1 : (detach c j).newAttached = false := by
    by_cases h : c.attached <;> simp [detach, h]
  refine ⟨h1, ?_, ?_, ?_⟩ <;> rw [h1] <;> rfl

/-- C9: every setter invoked with no worker attached — in particular before
any successful `attach` — returns the `ThreadNotRunning` error (the spec's
ServiceNotRunning); for `set_metadata` this holds whenever the metadata
conversion itself returns (does not panic). -/
theorem setter_without_worker_not_running (c : FacadeState) (h : c.attached = false) :
    (∀ p, set_playback c p = Except.error Error.ThreadNotRunning)
    ∧ (∀ v, set_volume c v = Except.error Error.ThreadNotRunning)
    ∧ (∀ b en, set_button_enabled c b en = Except.error Error.ThreadNotRunning)
    ∧ (∀ m om, ownedMetadataFromMedia m = some om →
        set_metadata c m = some (Except.error Error.ThreadNotRunning)) := by
  refine ⟨fun p => ?_, fun v => ?_, fun b en => ?_, fun m om hm => ?_⟩
  · simp [set_playback, send_internal_event, h]
  · simp [set_volume, send_internal_event, h]
  · simp [set_button_enabled, send_internal_event, h]
  · simp [set_metadata, send_internal_event, h, hm]

/-- Closed instance of `setter_without_worker_not_running`: a fresh
(never-attached) facade rejects `set_playback` with `ThreadNotRunning`. -/
theorem setter_without_worker_not_running_witness :
    set_playback { attached := false, channelOpen := false } MediaPlayback.Stopped
      = Except.error Error.ThreadNotRunning :=
  (setter_without_worker_not_running { attached := false, channelOpen := false } rfl).1
    MediaPlayback.Stopped

/-- C10: the `MediaMetadata → OwnedMetadata` conversion is not total — it
unwraps the microseconds-to-`i64` conversion, so any duration whose
microsecond count exceeds `i64::MAX` makes the conversion panic (modelled as
`none`) instead of returning an error. -/
theorem metadata_conversion_panics_on_overflow (m : MediaMetadata) (d : Nat)
    (h : m.duration = some d) (hd : i64Max < d) :
    ownedMetadataFromMedia m = none := by
  simp [ownedMetadataFromMedia, h, tryIntoI64, not_le.mpr hd]

/-- Closed instance of `metadata_conversion_panics_on_overflow`: a duration of
`2 ^ 63` microseconds (one more than `i64::MAX`) panics the conversion. -/
theorem metadata_conversion_panics_on_overflow_witness :
    ownedMetadataFromMedia
        { title := none, artist := none, album := none, cover_url := none,
          duration := some (2 ^ 63) }
      = none :=
  metadata_conversion_panics_on_overflow
    { title := none, artist := none, album := none, cover_url := none,
      duration := some (2 ^ 63) }
    (2 ^ 63) rfl (by decide)

end SouvlakiMpris
